import Mathlib

/-!
Verification of the EDDN `Gateway.py` upload pipeline.

The gateway accepts possibly-compressed, possibly-form-encoded HTTP POST
bodies, normalizes them to a canonical payload string, parses that payload
as JSON, optionally augments the parsed message with a salted hash of the
remote address, and publishes the compressed serialization on a pub/sub
socket.

External C-library collaborators (`zlib`, `hashlib.sha1`, `simplejson`)
are modelled as an explicit record of functions (`Gateway.Ext`); the
control flow of `Gateway.py` itself is embedded faithfully below.  The
pure-Python standard-library helper `urlparse.parse_qs` is embedded
concretely (`Gateway.parse_qsl`), following the CPython 2.7 source.
-/

namespace Gateway

/-- JSON trees, the possible results of `simplejson.loads`: a JSON object
decodes to a Python `dict`, an array to a `list`, and so on. -/
inductive JValue where
  | null
  | bool (b : Bool)
  | num (n : Int)
  | str (s : String)
  | arr (elems : List JValue)
  | obj (members : List (String × JValue))

/-- Whether a decoded JSON value is a mapping (a Python `dict`). -/
def JValue.isObj : JValue → Bool
  | .obj _ => true
  | _ => false

/-- The external library functions `Gateway.py` calls.  Each is a parameter
of the model: `zlib.decompress` at the two window settings used by the
source, `simplejson.loads` and `simplejson.dumps`, `hashlib.sha1(,).hexdigest()`
and `zlib.compress`.  An `Except.error` carries the exception message
(`exc.message`) of the Python exception the call raises. -/
structure Ext where
  decompressAuto : String → Except String String
  decompressRaw : String → Except String String
  loads : String → Except String JValue
  dumps : JValue → String
  sha1hex : String → String
  compress : String → String

/-- One HTTP POST request to `/upload/`, reduced to the fields the gateway
reads: the `Content-Encoding` header (empty string when absent, as in
`request.headers.get` with default), the raw body bytes
(`request.body.read()`; bottle seeks the body stream back to offset 0 on
every access of `request.body`, so repeated reads return the same bytes),
the value bottle parsed for the form field `data`
(`request.forms.get` yields `None`, modelled `none`, when the request is
not form-encoded or lacks the field), the `X-Forwarded-For` header, and
the transport-level peer address. -/
structure Request where
  contentEncoding : String
  body : String
  formsData : Option String
  xForwardedFor : Option String
  remoteAddr : String

/-- Embeds `get_remote_address`: the forwarded-for header when present,
else the transport peer address. -/
def get_remote_address (req : Request) : String :=
  req.xForwardedFor.getD req.remoteAddr

/- ----------------------------------------------------------------- -/
/- `urlparse.parse_qs`, embedded from the CPython 2.7 source.         -/
/- ----------------------------------------------------------------- -/

/-- Hexadecimal digit value of a character, accepting both cases, as the
`_hextochr` table of `urllib` does. -/
def hexVal (c : Char) : Option Nat :=
  if '0' ≤ c ∧ c ≤ '9' then some (c.toNat - 48)
  else if 'a' ≤ c ∧ c ≤ 'f' then some (c.toNat - 87)
  else if 'A' ≤ c ∧ c ≤ 'F' then some (c.toNat - 55)
  else none

/-- Embeds `urllib.unquote`: each percent sign followed by two hex digits
becomes the corresponding byte; a percent sign not followed by two hex
digits is kept literally. -/
def unquoteChars : List Char → List Char
  | [] => []
  | '%' :: a :: b :: rest =>
    match hexVal a, hexVal b with
    | some x, some y => Char.ofNat (16 * x + y) :: unquoteChars rest
    | _, _ => '%' :: unquoteChars (a :: b :: rest)
  | c :: rest => c :: unquoteChars rest

/-- Embeds the `.replace(Plus, Space)` step of `parse_qsl`. -/
def plusToSpace (l : List Char) : List Char :=
  l.map (fun c => if c = '+' then ' ' else c)

/-- Splits a query string on both separators, matching
`[s2 for s1 in qs.split(Amp) for s2 in s1.split(Semi)]`. -/
def splitOnAmpSemi : List Char → List (List Char)
  | [] => [[]]
  | c :: rest =>
    let r := splitOnAmpSemi rest
    if c = '&' ∨ c = ';' then [] :: r
    else
      match r with
      | [] => [[c]]
      | h :: t => (c :: h) :: t

/-- Splits a chunk at its first equals sign, matching `split(Eq, 1)`;
`none` when the chunk holds no equals sign. -/
def splitEq1 : List Char → Option (List Char × List Char)
  | [] => none
  | c :: rest =>
    if c = '=' then some ([], rest)
    else (splitEq1 rest).map (fun p => (c :: p.1, p.2))

/-- Embeds `urlparse.parse_qsl` with its default arguments
(`keep_blank_values=0`, `strict_parsing=0`): empty chunks are skipped,
chunks without an equals sign are skipped, chunks whose value part is
empty are skipped, and name and value are plus-decoded then
percent-decoded. -/
def parse_qsl (qs : String) : List (String × String) :=
  (splitOnAmpSemi qs.toList).filterMap (fun nv =>
    if nv.isEmpty then none
    else
      match splitEq1 nv with
      | none => none
      | some (n, v) =>
        if v.isEmpty then none
        else some ((unquoteChars (plusToSpace n)).asString,
                   (unquoteChars (plusToSpace v)).asString))

/-- Embeds the dict lookup `form_enc_parsed[DataKey][0]` on the result of
`urlparse.parse_qs`: `parse_qs` groups the `parse_qsl` pairs by name in
order, so index 0 of the entry for `data` is the first value whose name
is `data`; `none` models the `KeyError` when no pair has that name
(`parse_qs` never produces an empty value list, so `IndexError` cannot
occur). -/
def qsGetDataFirst (l : List (String × String)) : Option String :=
  ((l.filter (fun p => p.1 = "data")).head?).map Prod.snd

/- ----------------------------------------------------------------- -/
/- The gateway pipeline.                                              -/
/- ----------------------------------------------------------------- -/

/-- The literal message of `MalformedUploadError` raised in
`get_decompressed_message`. -/
def malformed_upload_message : String :=
  "No \x27data\x27 POST key/value found. Check your POST key name for spelling, and make sure you\x27re passing a value."

/-- The two exception kinds that can escape `get_decompressed_message`:
`zlib.error` (carrying the message of the exception) and
`MalformedUploadError`. -/
inductive UploadError where
  | zlibError (msg : String)
  | malformedUpload
deriving DecidableEq

/-- Embeds the first `try/except` of `get_decompressed_message`:
`zlib.decompress(body, 15 + 32)` with automatic header detection and, when
that raises `zlib.error`, `zlib.decompress(body, -15)` on the same body
bytes (bottle re-reads from offset 0).  When the second call also raises,
its message is the one that propagates. -/
def decompress_both (ext : Ext) (body : String) : Except String String :=
  match ext.decompressAuto body with
  | .ok message_body => .ok message_body
  | .error _ => ext.decompressRaw body

/-- Embeds the form-disambiguation step of `get_decompressed_message` on a
decompressed body: when `urlparse.parse_qs` yields a non-empty mapping the
first `data` value becomes the payload, a non-empty mapping without a
`data` key raises `MalformedUploadError`, and an empty mapping leaves the
decompressed bytes as the payload. -/
def form_disambiguate (message_body : String) : Except UploadError String :=
  let form_enc_parsed := parse_qsl message_body
  if form_enc_parsed.isEmpty then .ok message_body
  else
    match qsGetDataFirst form_enc_parsed with
    | some v => .ok v
    | none => .error .malformedUpload

/-- Embeds `get_decompressed_message`.  On the compressed path (the
`Content-Encoding` header equals `gzip` or `deflate`) the body is
decompressed with fallback and then form-disambiguated.  On the
uncompressed path, `request.forms.get` supplies the `data` field and the
Python truthiness test `if data_key:` accepts it only when it is present
and non-empty; otherwise the raw body is the payload. -/
def get_decompressed_message (ext : Ext) (req : Request) :
    Except UploadError String :=
  if req.contentEncoding = "gzip" ∨ req.contentEncoding = "deflate" then
    match decompress_both ext req.body with
    | .error e => .error (.zlibError e)
    | .ok message_body => form_disambiguate message_body
  else
    match req.formsData with
    | some data_key => if data_key ≠ "" then .ok data_key else .ok req.body
    | none => .ok req.body

/-- The upload-key entry built at the salted path of
`parse_and_error_handle`: name `EMDR` and key
`hashlib.sha1(ip_hash_salt + get_remote_address()).hexdigest()`. -/
def upload_key_entry (ext : Ext) (salt remote_address : String) :
    String × String :=
  ("EMDR", ext.sha1hex (salt ++ remote_address))

/-- Models the Python attribute lookup `parsed_message.upload_keys` on the
value returned by `simplejson.loads`.  `simplejson.loads` (called with no
`object_hook`) decodes JSON into the built-in types `dict`, `list`,
`unicode`/`str`, `int`/`long`/`float`, `bool` and `None`.  Attribute
access on a `dict` does not consult its items, and none of these built-in
types defines an attribute named `upload_keys`, so the lookup raises
`AttributeError` for every decoded value — including a decoded object
that carries an `upload_keys` item, since that item is reachable only by
subscription, not by attribute access. -/
def pyGetattrUploadKeys : JValue → Option Unit
  | .obj _ => none
  | .arr _ => none
  | .str _ => none
  | .num _ => none
  | .bool _ => none
  | .null => none

/-- The bodies the error-reporting surface can return with status 400:
the `zlib.error` message, the fixed `MalformedUploadError` message, or
the JSON parser message. -/
inductive ErrBody where
  | zlibMsg (m : String)
  | missingDataKey
  | parseMsg (m : String)
deriving DecidableEq

/-- The body text rendered for each 400 response (`exc.message`). -/
def ErrBody.text : ErrBody → String
  | .zlibMsg m => m
  | .missingDataKey => malformed_upload_message
  | .parseMsg m => m

/-- The outward result of one request to `/upload/`: success (HTTP 200,
body `OK`, carrying the single published frame), a handled failure
(HTTP 400 with the given body), or the `AttributeError` that escapes
every handler and reaches bottle, which answers HTTP 500. -/
inductive GResult where
  | ok (frame : String)
  | badRequest (body : ErrBody)
  | uncaughtAttributeError
deriving DecidableEq

/-- HTTP status of a result; an uncaught exception makes bottle answer
with its 500 error page. -/
def http_status : GResult → Nat
  | .ok _ => 200
  | .badRequest _ => 400
  | .uncaughtAttributeError => 500

/-- HTTP body of a result (bottle renders its own page for the uncaught
exception; only its status matters to the claims). -/
def http_body : GResult → String
  | .ok _ => "OK"
  | .badRequest e => e.text
  | .uncaughtAttributeError => "Internal Server Error"

/-- Embeds `push_message`: the frame actually sent on the PUB socket is
the zlib compression of the serialized message, never the plain string. -/
def push_message (ext : Ext) (string_message : String) : String :=
  ext.compress string_message

/-- Embeds `parse_and_error_handle`.  `simplejson.loads` failures
(`ValueError` and kin) are caught and returned as the 400 body.  When the
salt setting is truthy, the source computes the sha1 upload key and then
evaluates `parsed_message.upload_keys`, an attribute access that raises
`AttributeError` (see `pyGetattrUploadKeys`) before the append argument is
even built; no handler catches it.  Otherwise the parsed message is
serialized, compressed and pushed, and the literal `OK` is returned. -/
def parse_and_error_handle (ext : Ext) (salt remote_address data : String) :
    GResult :=
  match ext.loads data with
  | .error msg => .badRequest (.parseMsg msg)
  | .ok parsed_message =>
    if salt ≠ "" then
      let _ip_hash := (upload_key_entry ext salt remote_address).2
      match pyGetattrUploadKeys parsed_message with
      | none => .uncaughtAttributeError
      | some _ =>
        .ok (push_message ext (ext.dumps parsed_message))
    else
      .ok (push_message ext (ext.dumps parsed_message))

/-- Embeds the `/upload/` handler: `zlib.error` and
`MalformedUploadError` escaping `get_decompressed_message` become 400
responses carrying the exception message, and an obtained payload is
passed to `parse_and_error_handle`. -/
def upload (ext : Ext) (salt : String) (req : Request) : GResult :=
  match get_decompressed_message ext req with
  | .error (.zlibError e) => .badRequest (.zlibMsg e)
  | .error .malformedUpload => .badRequest .missingDataKey
  | .ok message_body =>
    parse_and_error_handle ext salt (get_remote_address req) message_body

/-- The frames published on the PUB socket by one request: exactly one on
success (spawned via `gevent.spawn(push_message, ...)`), none otherwise. -/
def frames : GResult → List String
  | .ok f => [f]
  | .badRequest _ => []
  | .uncaughtAttributeError => []

/- ----------------------------------------------------------------- -/
/- A concrete instantiation of the external libraries, used by the    -/
/- closed evaluation theorems and the witnesses.                      -/
/- ----------------------------------------------------------------- -/

/-- Opening curly bracket character. -/
def lbrace : Char := Char.ofNat 123

/-- Closing curly bracket character. -/
def rbrace : Char := Char.ofNat 125

/-- Reads the remainder of a JSON string literal after its opening quote
(no escape handling; the demonstration inputs use none). -/
def demoStrBody : List Char → Option (List Char × List Char)
  | [] => none
  | c :: rest =>
    if c = '"' then some ([], rest)
    else
      match demoStrBody rest with
      | some (s, r) => some (c :: s, r)
      | none => none

/-- Splits a leading run of decimal digits from a character list. -/
def takeDigits : List Char → List Char × List Char
  | [] => ([], [])
  | c :: rest =>
    if c.isDigit then
      let (d, r) := takeDigits rest
      (c :: d, r)
    else ([], c :: rest)

/-- Value of a list of decimal digits. -/
def digitsToNat (l : List Char) : Nat :=
  l.foldl (fun acc c => 10 * acc + (c.toNat - 48)) 0

/-- Reads one scalar JSON value (string or non-negative integer). -/
def demoScalar (cs : List Char) : Option (JValue × List Char) :=
  match cs with
  | [] => none
  | c :: rest =>
    if c = '"' then
      (demoStrBody rest).map (fun p => (JValue.str p.1.asString, p.2))
    else if c.isDigit then
      let (d, r) := takeDigits (c :: rest)
      some (JValue.num (Int.ofNat (digitsToNat d)), r)
    else none

/-- Reads the members of a JSON object after the opening bracket, up to
and including the closing bracket (fuel-indexed recursion). -/
def demoMembers : Nat → List Char → Option (List (String × JValue) × List Char)
  | 0, _ => none
  | fuel + 1, cs =>
    match cs with
    | c :: rest =>
      if c = '"' then
        match demoStrBody rest with
        | some (key, r1) =>
          match r1 with
          | ':' :: r2 =>
            match demoScalar r2 with
            | some (v, r3) =>
              match r3 with
              | ',' :: r4 =>
                (demoMembers fuel r4).map
                  (fun p => ((key.asString, v) :: p.1, p.2))
              | c2 :: r4 =>
                if c2 = rbrace then some ([(key.asString, v)], r4) else none
              | [] => none
            | none => none
          | _ => none
        | none => none
      else none
    | [] => none

/-- Reads the elements of a JSON array after the opening bracket, up to
and including the closing bracket (fuel-indexed recursion). -/
def demoElems : Nat → List Char → Option (List JValue × List Char)
  | 0, _ => none
  | fuel + 1, cs =>
    match demoScalar cs with
    | some (v, r) =>
      match r with
      | ',' :: r2 => (demoElems fuel r2).map (fun p => (v :: p.1, p.2))
      | ']' :: r2 => some ([v], r2)
      | _ => none
    | none => none

/-- A small JSON reader covering flat objects and arrays of scalars.  It
stands in for the external `simplejson.loads` in the concrete evaluation
theorems; the pipeline theorems themselves hold for every `Ext`. -/
def demoLoads (s : String) : Except String JValue :=
  let cs := s.toList
  match cs with
  | [] => .error "No JSON object could be decoded"
  | c :: rest =>
    if c = lbrace then
      match demoMembers (cs.length + 1) rest with
      | some (kvs, []) => .ok (.obj kvs)
      | _ => .error "No JSON object could be decoded"
    else if c = '[' then
      match demoElems (cs.length + 1) rest with
      | some (vs, []) => .ok (.arr vs)
      | _ => .error "No JSON object could be decoded"
    else
      match demoScalar cs with
      | some (v, []) => .ok v
      | _ => .error "No JSON object could be decoded"

/-- Demonstration instantiation of the external libraries: decompression
recognizes an explicit framing marker, the hash is the identity (an
injective stand-in for sha1), and compression prepends a marker. -/
def extDemo : Ext where
  decompressAuto := fun s =>
    match s.toList with
    | 'Z' :: ':' :: rest => .ok rest.asString
    | _ => .error "Error -3 while decompressing data: incorrect header check"
  decompressRaw := fun s =>
    match s.toList with
    | 'R' :: ':' :: rest => .ok rest.asString
    | _ => .error "Error -3 while decompressing data: invalid stored block lengths"
  loads := demoLoads
  dumps := fun _ => "serialized"
  sha1hex := fun s => s
  compress := fun s => "Z:" ++ s

/-- A JSON body that is not form-encoded but contains an equals sign. -/
def jBodyEq : String := "\x7b\"a\":\"b=c\"\x7d"

/-- Uncompressed request carrying the JSON object body. -/
def reqMapSalted : Request := ⟨"", "\x7b\"a\":1\x7d", none, none, "1.2.3.4"⟩

/-- Uncompressed request carrying a JSON list body. -/
def reqListSalted : Request := ⟨"", "[1,2]", none, none, "9.9.9.9"⟩

/-- Second uncompressed request carrying a JSON object body. -/
def reqMapSalted2 : Request := ⟨"", "\x7b\"b\":2\x7d", none, none, "5.5.5.5"⟩

/-- Uncompressed form-encoded request whose form fields lack `data`
(bottle parsed the body, found no `data` field, so `forms.get` is
`none`); the raw body is the form-encoded text itself. -/
def reqFormNoData : Request := ⟨"", "foo=bar", none, none, "2.2.2.2"⟩

/-- Compressed request whose body only decompresses under raw-deflate
framing in the demonstration instantiation. -/
def reqRawDeflate : Request := ⟨"gzip", "R:xyz", none, none, "4.4.4.4"⟩

/-- Compressed request whose decompressed bytes are form-encoded without
a `data` key. -/
def reqGzFormNoData : Request := ⟨"gzip", "Z:foo=bar", none, none, "2.3.4.5"⟩

/-- Uncompressed request used for a successful publish. -/
def reqOkList : Request := ⟨"", "[1,2]", none, none, "8.8.8.8"⟩

/-- Request without a forwarded-for header. -/
def rqA : Request := ⟨"", "x", none, none, "1.2.3.4"⟩

/-- Request from the same peer but with a forwarded-for header, so its
resolved remote address differs. -/
def rqB : Request := ⟨"", "x", none, some "10.0.0.1", "1.2.3.4"⟩

/-- Compressed request whose decompressed bytes are `jBodyEq`. -/
def creqMis : Request := ⟨"gzip", "Z:\x7b\"a\":\"b=c\"\x7d", none, none, "3.3.3.3"⟩

/-- Uncompressed request whose raw body is `jBodyEq`. -/
def ureqMis : Request := ⟨"", "\x7b\"a\":\"b=c\"\x7d", none, none, "3.3.3.3"⟩

/-- Uncompressed form-encoded request whose `data` field is present but
empty, so `forms.get` yields the empty string. -/
def reqEmptyData : Request := ⟨"", "data=&foo=1", some "", none, "7.7.7.7"⟩

end Gateway

namespace Gateway

/-- Helper: appending a fixed string on the left is cancellable, so equal
hash inputs `salt ++ a` force equal addresses. -/
theorem string_append_left_cancel {s a b : String} (h : s ++ a = s ++ b) :
    a = b := by
  have hd := congrArg String.data h
  simp only [String.data_append] at hd
  exact String.ext (List.append_cancel_left hd)

/-- C1: with a salt configured, a JSON-mapping upload does not get an
`upload_keys` entry appended; the source evaluates
`parsed_message.upload_keys` by attribute access on the `dict` returned
by `simplejson.loads`, which raises `AttributeError` unconditionally, and
no handler catches it, so the request dies with HTTP 500 instead of
succeeding with the augmented message. -/
theorem salted_mapping_upload_raises_attribute_error :
    upload extDemo "secretsalt" reqMapSalted = .uncaughtAttributeError ∧
    http_status (upload extDemo "secretsalt" reqMapSalted) = 500 :=
  ⟨rfl, rfl⟩

/-- C2 counterexample: a salted upload whose body parses as a JSON list
is not answered with a 400 parse error; the augmentation attempt raises
an uncaught `AttributeError` and the status is 500. -/
theorem salted_list_upload_not_parse_error :
    upload extDemo "s" reqListSalted = .uncaughtAttributeError ∧
    http_status (upload extDemo "s" reqListSalted) ≠ 400 :=
  ⟨rfl, by decide⟩

/-- C2 amended: for every upload whose body parses as JSON with a
non-mapping top-level value, when a salt is configured, the augmentation
attempt raises an uncaught `AttributeError` (surfaced as HTTP 500 by the
framework) rather than failing with a `ParseError` 400; the
`upload_keys` append is never performed. -/
theorem salted_nonmapping_upload_uncaught_attribute_error
    (ext : Ext) (salt : String) (req : Request) (mb : String) (v : JValue)
    (hsalt : salt ≠ "")
    (hmb : get_decompressed_message ext req = .ok mb)
    (hv : ext.loads mb = .ok v) (_hnm : v.isObj = false) :
    upload ext salt req = .uncaughtAttributeError := by
  simp only [upload, hmb, parse_and_error_handle, hv]
  rw [if_pos hsalt]
  cases v <;> rfl

/-- Witness for the amended C2 theorem at a concrete salted list upload. -/
theorem salted_nonmapping_upload_witness :
    upload extDemo "s2" reqListSalted = .uncaughtAttributeError :=
  salted_nonmapping_upload_uncaught_attribute_error extDemo "s2" reqListSalted
    "[1,2]" (.arr [.num 1, .num 2]) (by decide) rfl rfl rfl

/-- C3: on the compressed path the gateway first tries auto-detecting
decompression, falls back to raw-deflate decompression of the same body
bytes when that fails, proceeds to form disambiguation with whichever
attempt succeeded, and only when both attempts fail answers 400 with the
decompression error text. -/
theorem compressed_path_decompression_fallback
    (ext : Ext) (salt : String) (req : Request)
    (henc : req.contentEncoding = "gzip" ∨ req.contentEncoding = "deflate") :
    (∀ mb, ext.decompressAuto req.body = .ok mb →
      get_decompressed_message ext req = form_disambiguate mb) ∧
    (∀ e mb, ext.decompressAuto req.body = .error e →
      ext.decompressRaw req.body = .ok mb →
      get_decompressed_message ext req = form_disambiguate mb) ∧
    (∀ e₁ e₂, ext.decompressAuto req.body = .error e₁ →
      ext.decompressRaw req.body = .error e₂ →
      get_decompressed_message ext req = .error (.zlibError e₂) ∧
      upload ext salt req = .badRequest (.zlibMsg e₂) ∧
      http_status (upload ext salt req) = 400) := by
  refine ⟨?_, ?_, ?_⟩
  · intro mb h
    simp only [get_decompressed_message]
    rw [if_pos henc]
    simp [decompress_both, h]
  · intro e mb h1 h2
    simp only [get_decompressed_message]
    rw [if_pos henc]
    simp [decompress_both, h1, h2]
  · intro e₁ e₂ h1 h2
    have hg : get_decompressed_message ext req = .error (.zlibError e₂) := by
      simp only [get_decompressed_message]
      rw [if_pos henc]
      simp [decompress_both, h1, h2]
    exact ⟨hg, by simp [upload, hg], by simp [upload, hg, http_status]⟩

/-- Witness for the C3 theorem: a body that only raw-deflate framing can
decompress is accepted through the second attempt. -/
theorem compressed_path_fallback_witness :
    get_decompressed_message extDemo reqRawDeflate = form_disambiguate "xyz" :=
  (compressed_path_decompression_fallback extDemo "" reqRawDeflate
    (Or.inl rfl)).2.1
    "Error -3 while decompressing data: incorrect header check" "xyz" rfl rfl

/-- C4 counterexample: an uncompressed form-encoded body lacking a `data`
field is not rejected with the missing-key `MalformedUploadError`; its
raw text becomes the canonical payload and the request instead fails JSON
parsing. -/
theorem uncompressed_form_without_data_not_missing_key :
    parse_qsl reqFormNoData.body = [("foo", "bar")] ∧
    upload extDemo "" reqFormNoData =
      .badRequest (.parseMsg "No JSON object could be decoded") ∧
    upload extDemo "" reqFormNoData ≠ .badRequest .missingDataKey :=
  ⟨rfl, rfl, by decide⟩

/-- C4 amended: only on the decompressed (compressed-encoding) path do
form-parsed bytes without a `data` key fail with `MalformedUploadError`
(HTTP 400 with the explicit missing-key message), and bytes that do not
parse as form-encoded are the raw canonical payload; on the uncompressed
path a form body without a truthy `data` field is treated as the raw
canonical payload rather than rejected. -/
theorem decompressed_form_probe_behaviour
    (ext : Ext) (salt : String) (req : Request) (mb : String) :
    ((req.contentEncoding = "gzip" ∨ req.contentEncoding = "deflate") →
      decompress_both ext req.body = .ok mb →
      ((parse_qsl mb ≠ [] → qsGetDataFirst (parse_qsl mb) = none →
          upload ext salt req = .badRequest .missingDataKey ∧
          http_status (upload ext salt req) = 400 ∧
          http_body (upload ext salt req) = malformed_upload_message) ∧
        (parse_qsl mb = [] → get_decompressed_message ext req = .ok mb))) ∧
    (¬(req.contentEncoding = "gzip" ∨ req.contentEncoding = "deflate") →
      (req.formsData = none ∨ req.formsData = some "") →
      get_decompressed_message ext req = .ok req.body) := by
  constructor
  · intro henc hdec
    have hg : ∀ r, form_disambiguate mb = r →
        get_decompressed_message ext req = r := by
      intro r hr
      simp only [get_decompressed_message]
      rw [if_pos henc]
      simp [hdec, hr]
    constructor
    · intro hne hnd
      have hfd : form_disambiguate mb = .error .malformedUpload := by
        simp [form_disambiguate, List.isEmpty_iff, hne, hnd]
      have hgd := hg _ hfd
      exact ⟨by simp [upload, hgd], by simp [upload, hgd, http_status],
        by simp [upload, hgd, http_body, ErrBody.text]⟩
    · intro hemp
      exact hg _ (by simp [form_disambiguate, hemp])
  · intro henc hfd
    simp only [get_decompressed_message]
    rw [if_neg henc]
    rcases hfd with h | h <;> simp [h]

/-- Witness for the amended C4 theorem: a compressed body whose
decompression is form-encoded without a `data` key yields the 400
missing-key response. -/
theorem decompressed_form_probe_witness :
    upload extDemo "w4" reqGzFormNoData = .badRequest .missingDataKey ∧
    http_status (upload extDemo "w4" reqGzFormNoData) = 400 ∧
    http_body (upload extDemo "w4" reqGzFormNoData) =
      malformed_upload_message :=
  ((decompressed_form_probe_behaviour extDemo "w4" reqGzFormNoData
    "foo=bar").1 (Or.inl rfl) rfl).1 (by decide) rfl

/-- C5 counterexample: with a salt configured, an upload whose body
parses as a JSON mapping is answered with HTTP 500 (uncaught
`AttributeError`), a status outside the specified response table. -/
theorem salted_upload_outside_response_table :
    http_status (upload extDemo "pepper" reqMapSalted2) = 500 ∧
    upload extDemo "pepper" reqMapSalted2 = .uncaughtAttributeError :=
  ⟨rfl, rfl⟩

/-- C5 amended: with no salt configured every request is answered with
exactly one of the four combinations (200 with body OK, 400 with the
decompression error text, 400 with the missing-key message, 400 with the
parser error text); with a salt configured, any request whose canonical
payload parses as JSON is instead answered 500 through the uncaught
`AttributeError`. -/
theorem upload_response_table (ext : Ext) (req : Request) :
    ((∃ f, upload ext "" req = .ok f ∧
        http_status (upload ext "" req) = 200 ∧
        http_body (upload ext "" req) = "OK") ∨
      (∃ m, upload ext "" req = .badRequest (.zlibMsg m) ∧
        http_status (upload ext "" req) = 400 ∧
        http_body (upload ext "" req) = m) ∨
      (upload ext "" req = .badRequest .missingDataKey ∧
        http_status (upload ext "" req) = 400 ∧
        http_body (upload ext "" req) = malformed_upload_message) ∨
      (∃ m, upload ext "" req = .badRequest (.parseMsg m) ∧
        http_status (upload ext "" req) = 400 ∧
        http_body (upload ext "" req) = m)) ∧
    (∀ salt mb v, salt ≠ "" →
      get_decompressed_message ext req = .ok mb → ext.loads mb = .ok v →
      http_status (upload ext salt req) = 500) := by
  constructor
  · cases hg : get_decompressed_message ext req with
    | error e =>
      cases e with
      | zlibError m =>
        exact Or.inr (Or.inl ⟨m,
          by simp [upload, hg, http_status, http_body, ErrBody.text]⟩)
      | malformedUpload =>
        exact Or.inr (Or.inr (Or.inl
          (by simp [upload, hg, http_status, http_body, ErrBody.text])))
    | ok mb =>
      cases hl : ext.loads mb with
      | error m =>
        exact Or.inr (Or.inr (Or.inr ⟨m,
          by simp [upload, hg, parse_and_error_handle, hl, http_status,
            http_body, ErrBody.text]⟩))
      | ok v =>
        exact Or.inl ⟨push_message ext (ext.dumps v),
          by simp [upload, hg, parse_and_error_handle, hl, http_status,
            http_body]⟩
  · intro salt mb v hsalt hg hl
    have hu : upload ext salt req = .uncaughtAttributeError := by
      simp only [upload, hg, parse_and_error_handle, hl]
      rw [if_pos hsalt]
      cases v <;> rfl
    simp [hu, http_status]

/-- Witness for the amended C5 theorem at a concrete salted upload. -/
theorem upload_response_table_witness :
    http_status (upload extDemo "w5" reqMapSalted2) = 500 :=
  (upload_response_table extDemo reqMapSalted2).2 "w5" "\x7b\"b\":2\x7d"
    (.obj [("b", .num 2)]) (by decide) rfl rfl

/-- C6: every frame sent on the publish socket is the compression of the
JSON serialization of the final parsed message of a successful upload;
a successful (200) upload publishes exactly one frame and every failed
request publishes none. -/
theorem published_frames_compressed (ext : Ext) (salt : String)
    (req : Request) :
    (∀ f, f ∈ frames (upload ext salt req) →
      ∃ mb v, get_decompressed_message ext req = .ok mb ∧
        ext.loads mb = .ok v ∧ f = ext.compress (ext.dumps v)) ∧
    (http_status (upload ext salt req) = 200 →
      (frames (upload ext salt req)).length = 1) ∧
    (http_status (upload ext salt req) ≠ 200 →
      frames (upload ext salt req) = []) := by
  cases hg : get_decompressed_message ext req with
  | error e =>
    cases e <;> refine ⟨?_, ?_, ?_⟩ <;>
      simp [upload, hg, frames, http_status]
  | ok mb =>
    cases hl : ext.loads mb with
    | error m =>
      refine ⟨?_, ?_, ?_⟩ <;>
        simp [upload, hg, parse_and_error_handle, hl, frames, http_status]
    | ok v =>
      by_cases hs : salt = ""
      · subst hs
        refine ⟨?_, ?_, ?_⟩
        · intro f hf
          refine ⟨mb, v, hg ▸ rfl, hl, ?_⟩
          simpa [upload, hg, parse_and_error_handle, hl, frames,
            push_message] using hf
        · simp [upload, hg, parse_and_error_handle, hl, frames]
        · simp [upload, hg, parse_and_error_handle, hl, http_status]
      · have hu : upload ext salt req = .uncaughtAttributeError := by
          simp only [upload, hg, parse_and_error_handle, hl]
          rw [if_pos hs]
          cases v <;> rfl
        refine ⟨?_, ?_, ?_⟩ <;> simp [hu, frames, http_status]

/-- Witness for the C6 theorem: the frame of a concrete successful upload
is the compressed serialization of its parsed message. -/
theorem published_frames_witness :
    ∃ mb v, get_decompressed_message extDemo reqOkList = .ok mb ∧
      extDemo.loads mb = .ok v ∧
      "Z:serialized" = extDemo.compress (extDemo.dumps v) :=
  (published_frames_compressed extDemo "" reqOkList).1 "Z:serialized"
    (by decide)

/-- C7: a raw uncompressed non-form JSON body and its uncompressed
form-encoded equivalent with field `data` produce the same canonical
payload and the same outward result, for every non-empty body text. -/
theorem raw_and_form_uploads_equivalent
    (ext : Ext) (salt J fbody ra : String) (xf : Option String)
    (hJ : J ≠ "") :
    get_decompressed_message ext ⟨"", J, none, xf, ra⟩ = .ok J ∧
    get_decompressed_message ext ⟨"", fbody, some J, xf, ra⟩ = .ok J ∧
    upload ext salt ⟨"", J, none, xf, ra⟩ =
      upload ext salt ⟨"", fbody, some J, xf, ra⟩ := by
  have h1 : get_decompressed_message ext ⟨"", J, none, xf, ra⟩ = .ok J := by
    simp [get_decompressed_message]
  have h2 : get_decompressed_message ext ⟨"", fbody, some J, xf, ra⟩ =
      .ok J := by
    simp [get_decompressed_message, hJ]
  refine ⟨h1, h2, ?_⟩
  simp [upload, h1, h2, get_remote_address]

/-- Witness for the C7 theorem at a concrete JSON body and its
form-encoded equivalent. -/
theorem raw_form_equiv_witness :
    upload extDemo "" ⟨"", "\x7b\"a\":1\x7d", none, none, "6.6.6.6"⟩ =
      upload extDemo ""
        ⟨"", "data=%7B%22a%22%3A1%7D", some "\x7b\"a\":1\x7d", none,
          "6.6.6.6"⟩ :=
  (raw_and_form_uploads_equivalent extDemo "" "\x7b\"a\":1\x7d"
    "data=%7B%22a%22%3A1%7D" "6.6.6.6" none (by decide)).2.2

/-- C8: with a fixed salt the upload-key entry is a deterministic
function of the resolved remote address, and, provided the hash function
is collision-free, two different resolved addresses give different key
values, because the hash inputs `salt ++ address` then differ. -/
theorem upload_key_hash_deterministic_and_distinct
    (ext : Ext) (salt : String) (req₁ req₂ : Request)
    (hinj : Function.Injective ext.sha1hex) :
    (get_remote_address req₁ = get_remote_address req₂ →
      upload_key_entry ext salt (get_remote_address req₁) =
        upload_key_entry ext salt (get_remote_address req₂)) ∧
    (get_remote_address req₁ ≠ get_remote_address req₂ →
      (upload_key_entry ext salt (get_remote_address req₁)).2 ≠
        (upload_key_entry ext salt (get_remote_address req₂)).2) := by
  constructor
  · intro h
    rw [h]
  · intro hne heq
    simp only [upload_key_entry] at heq
    exact hne (string_append_left_cancel (hinj heq))

/-- Witness for the C8 theorem: two requests from the same peer, one with
a forwarded-for header, resolve to different addresses and get different
key values under an injective hash. -/
theorem upload_key_hash_witness :
    (upload_key_entry extDemo "pep" (get_remote_address rqA)).2 ≠
      (upload_key_entry extDemo "pep" (get_remote_address rqB)).2 :=
  (upload_key_hash_deterministic_and_distinct extDemo "pep" rqA rqB
    (fun _ _ h => h)).2 (by decide)

/-- C9: the decompressed-path form probe misclassifies the JSON body
`jBodyEq`, which contains an equals sign: its query-string parse is
non-empty without a `data` key, so a compressed upload of it is rejected
with the missing-key 400, while the identical body uploaded uncompressed
(and unsalted) is accepted with 200. -/
theorem form_probe_misclassifies_json_with_equals
    (ext : Ext) (salt : String) (creq ureq : Request) (v : JValue)
    (hce : creq.contentEncoding = "gzip" ∨ creq.contentEncoding = "deflate")
    (hdec : decompress_both ext creq.body = .ok jBodyEq)
    (hue : ureq.contentEncoding = "")
    (huf : ureq.formsData = none)
    (hub : ureq.body = jBodyEq)
    (hl : ext.loads jBodyEq = .ok v) :
    parse_qsl jBodyEq ≠ [] ∧
    qsGetDataFirst (parse_qsl jBodyEq) = none ∧
    upload ext salt creq = .badRequest .missingDataKey ∧
    http_status (upload ext "" ureq) = 200 := by
  refine ⟨by decide, rfl, ?_, ?_⟩
  · have hg : get_decompressed_message ext creq =
        .error .malformedUpload := by
      simp only [get_decompressed_message]
      rw [if_pos hce]
      simp only [hdec]
      rfl
    simp [upload, hg]
  · have hg : get_decompressed_message ext ureq = .ok jBodyEq := by
      simp only [get_decompressed_message]
      rw [if_neg (by simp [hue])]
      simp [huf, hub]
    simp [upload, hg, parse_and_error_handle, hl, http_status]

/-- Witness for the C9 theorem at a concrete compressed request and its
uncompressed twin. -/
theorem form_probe_witness :
    parse_qsl jBodyEq ≠ [] ∧
    qsGetDataFirst (parse_qsl jBodyEq) = none ∧
    upload extDemo "psalt" creqMis = .badRequest .missingDataKey ∧
    http_status (upload extDemo "" ureqMis) = 200 :=
  form_probe_misclassifies_json_with_equals extDemo "psalt" creqMis ureqMis
    (.obj [("a", .str "b=c")]) (Or.inl rfl) rfl rfl rfl rfl rfl

/-- C10: on the uncompressed path the form field `data` is tested by
truthiness, so a present-but-empty `data` field is treated exactly as an
absent one and the entire raw body text becomes the canonical payload. -/
theorem empty_data_field_treated_as_absent
    (ext : Ext) (salt : String) (req : Request)
    (henc : ¬(req.contentEncoding = "gzip" ∨
      req.contentEncoding = "deflate"))
    (hfd : req.formsData = some "") :
    get_decompressed_message ext req = .ok req.body ∧
    get_decompressed_message ext req =
      get_decompressed_message ext { req with formsData := none } ∧
    upload ext salt req = upload ext salt { req with formsData := none } := by
  have h1 : get_decompressed_message ext req = .ok req.body := by
    simp only [get_decompressed_message]
    rw [if_neg henc]
    simp [hfd]
  have h2 : get_decompressed_message ext { req with formsData := none } =
      .ok req.body := by
    have hc : ({ req with formsData := none } : Request).contentEncoding =
        req.contentEncoding := rfl
    have hb : ({ req with formsData := none } : Request).body =
        req.body := rfl
    have hf : ({ req with formsData := none } : Request).formsData =
        none := rfl
    simp only [get_decompressed_message, hc, hb, hf]
    rw [if_neg henc]
  refine ⟨h1, h1.trans h2.symm, ?_⟩
  simp [upload, h1, h2, get_remote_address]

/-- Witness for the C10 theorem: a form-encoded upload whose `data` field
is empty keeps its whole raw body as the canonical payload. -/
theorem empty_data_field_witness :
    get_decompressed_message extDemo reqEmptyData = .ok "data=&foo=1" :=
  (empty_data_field_treated_as_absent extDemo "" reqEmptyData (by decide)
    rfl).1

end Gateway
